import Mathlib

/-!
Shallow embedding of the usage-analytics engine of the ccseva repository
(`src/services/ccusageService.ts`), together with theorems settling the
frozen claims about it.

Modelling conventions:
* JavaScript numbers are modelled as exact rationals (`ℚ`); timestamps are
  milliseconds since the epoch.
* Calendar-date strings produced by `Date.prototype.toISOString().split('T')[0]`
  are modelled by the UTC day key `⌊ms / 86400000⌋ : ℤ`, which determines the
  date string bijectively for the representable era.
* Results of the external collaborators (`ResetTimeService`, `SessionTracker`,
  the local-timezone date arithmetic of the host) are supplied through an
  environment record `Env`; the session-tracking summary type is an abstract
  type parameter `T`.
* The service's mutable instance fields become an explicit `ServiceState`
  threaded through the operations; `async` methods become total functions that
  additionally receive the already-awaited loader outcome (`Except`), so
  "does not throw" is expressed by totality.
-/

/-- Token counts of a session block, mirroring the `TokenCounts` interface. -/
structure TokenCounts where
  inputTokens : ℚ
  outputTokens : ℚ
  cacheCreationInputTokens : ℚ
  cacheReadInputTokens : ℚ
deriving DecidableEq

/-- A session block as consumed by the service, mirroring the `SessionBlock`
interface. The `entries` field of the source is never read by the service and
is omitted; `isGap?: boolean` (absent treated as false) becomes a `Bool`. -/
structure SessionBlock where
  id : String
  startTime : ℚ
  endTime : ℚ
  actualEndTime : Option ℚ
  isActive : Bool
  isGap : Bool
  tokenCounts : TokenCounts
  costUSD : ℚ
  models : List String
deriving DecidableEq

/-- The four subscription plans of `CCUsageService.currentPlan`. -/
inductive Plan where
  | Pro
  | Max5
  | Max20
  | Custom
deriving DecidableEq

/-- Trend classification of `VelocityInfo.trend`. -/
inductive Trend where
  | increasing
  | decreasing
  | stable
deriving DecidableEq

/-- Per-model usage entry inside a `DailyUsage.models` map. -/
structure ModelUsage where
  tokens : ℚ
  cost : ℚ
deriving DecidableEq

/-- Daily usage aggregate; `date` is the UTC day key of the calendar date
string, `models` the insertion-ordered object map of the source. -/
structure DailyUsage where
  date : ℤ
  totalTokens : ℚ
  totalCost : ℚ
  models : List (String × ModelUsage)
deriving DecidableEq

/-- A per-model breakdown entry of the loader's daily data (`ModelBreakdown`). -/
structure ModelBreakdown where
  modelName : String
  inputTokens : ℚ
  outputTokens : ℚ
  cacheCreationTokens : ℚ
  cacheReadTokens : ℚ
  cost : ℚ
deriving DecidableEq

/-- One record of the loader's daily data (`DailyDataEntry`); `date` is the
UTC day key of its date string. -/
structure DailyDataEntry where
  date : ℤ
  inputTokens : ℚ
  outputTokens : ℚ
  cacheCreationTokens : ℚ
  cacheReadTokens : ℚ
  totalCost : ℚ
  modelBreakdowns : List ModelBreakdown
deriving DecidableEq

/-- Velocity information (`VelocityInfo`). -/
structure VelocityInfo where
  current : ℚ
  average24h : ℚ
  average7d : ℚ
  trend : Trend
  trendPercent : ℚ
  peakHour : ℚ
  isAccelerating : Bool
deriving DecidableEq

/-- Prediction information (`PredictionInfo`); `depletionTime` is the
millisecond instant of the projected depletion (the source stores its ISO
string). -/
structure PredictionInfo where
  depletionTime : Option ℚ
  confidence : ℚ
  daysRemaining : ℚ
  recommendedDailyLimit : ℚ
  onTrackForReset : Bool
deriving DecidableEq

/-- Modelled from the spec: the Reset-Time Calculator's `ResetTimeInfo`
(`src/services/resetTimeService.ts` and `src/types/usage.ts` are not part of
the provided sources). The engine never inspects its fields, it only passes
the record to the external calculator, so a minimal record suffices. -/
structure ResetTimeInfo where
  nextResetTime : ℚ
  timeUntilReset : ℚ
deriving DecidableEq

/-- Result of `getTimeUntilActualReset`. -/
structure ActualResetInfo where
  nextResetTime : Option ℚ
  timeUntilReset : ℚ
  formattedTimeRemaining : String
deriving DecidableEq

/-- The output snapshot (`UsageStats`), parametrised by the abstract type `T`
of the external Session-Window Tracker's summary. -/
structure UsageStats (T : Type) where
  today : DailyUsage
  thisWeek : List DailyUsage
  thisMonth : List DailyUsage
  burnRate : ℚ
  velocity : VelocityInfo
  prediction : PredictionInfo
  resetInfo : ResetTimeInfo
  actualResetInfo : ActualResetInfo
  predictedDepleted : Option ℚ
  currentPlan : Plan
  tokenLimit : ℚ
  tokensUsed : ℚ
  tokensRemaining : ℚ
  percentageUsed : ℚ
  sessionTracking : T

/-- The service's mutable instance fields (`CCUsageService`). -/
structure ServiceState (T : Type) where
  cachedStats : Option (UsageStats T)
  lastUpdate : ℚ
  currentPlan : Plan
  detectedTokenLimit : ℚ
  historicalBlocks : List SessionBlock
  currentActiveBlock : Option SessionBlock

/-- Environment of external collaborators: the Reset-Time Calculator's
results, the Session-Window Tracker, and the host's local-timezone date
arithmetic (today's local date key and the `setDate`-based week/month-ago
cutoff instants used by the history filters). -/
structure Env (T : Type) where
  resetInfo : ResetTimeInfo
  recommendedDailyLimit : ℚ → ResetTimeInfo → ℚ
  isOnTrackForReset : ℚ → ℚ → ResetTimeInfo → Bool
  trackingFromBlocks : List SessionBlock → T
  todayKeyLocal : ℤ
  weekAgoMs : ℚ
  monthAgoMs : ℚ

/-- Result of one `getUsageStats` call: the returned snapshot, the state after
the call, and whether the external loader was invoked. -/
structure GetResult (T : Type) where
  stats : UsageStats T
  state : ServiceState T
  loaderCalled : Bool

/-- JavaScript `Math.max` on two numbers. -/
def jsMax (a b : ℚ) : ℚ := if a < b then b else a

/-- JavaScript `Math.min` on two numbers. -/
def jsMin (a b : ℚ) : ℚ := if a < b then a else b

/-- JavaScript `Math.abs`. -/
def jsAbs (a : ℚ) : ℚ := if a < 0 then -a else a

/-- JavaScript `Math.floor` (the floor of a rational, as an integer). -/
def jsFloor (a : ℚ) : ℤ := ⌊a⌋

/-- UTC day key of a millisecond instant: models
`new Date(ms).toISOString().split('T')[0]`. -/
def dayKey (ms : ℚ) : ℤ := jsFloor (ms / 86400000)

/-- JavaScript `Math.round`: round half towards positive infinity. -/
def jsRound (x : ℚ) : ℤ := jsFloor (x + 1/2)

/-- `CCUsageService.getTotalTokensFromBlock`. -/
def getTotalTokensFromBlock (block : SessionBlock) : ℚ :=
  block.tokenCounts.inputTokens +
  block.tokenCounts.outputTokens +
  block.tokenCounts.cacheCreationInputTokens +
  block.tokenCounts.cacheReadInputTokens

/-- `CCUsageService.getTokenLimit`. -/
def getTokenLimit (plan : Plan) : ℚ :=
  match plan with
  | .Pro => 7000
  | .Max5 => 35000
  | .Max20 => 140000
  | .Custom => 500000

/-- `CCUsageService.getMaxTokensFromBlocks`: the imperative maximum loop over
non-gap, non-active blocks, defaulting to 7000 when the running maximum stays
at its initial 0. -/
def getMaxTokensFromBlocks (blocks : List SessionBlock) : ℚ :=
  let maxTokens := blocks.foldl
    (fun acc block =>
      if !block.isGap && !block.isActive then
        let totalTokens := getTotalTokensFromBlock block
        if totalTokens > acc then totalTokens else acc
      else acc) 0
  if maxTokens > 0 then maxTokens else 7000

/-- Effective session end used by the burn-rate loop: now if active, the
actual end time if the block closed early, else the nominal end time. -/
def sessionEndOf (now : ℚ) (block : SessionBlock) : ℚ :=
  if block.isActive then now else block.actualEndTime.getD block.endTime

/-- One iteration of the `calculateHourlyBurnRate` loop body. -/
def hourStep (now : ℚ) (acc : ℚ) (block : SessionBlock) : ℚ :=
  if block.isGap then acc
  else
    let oneHourAgo := now - 3600000
    let sessionEnd := sessionEndOf now block
    if sessionEnd < oneHourAgo then acc
    else
      let sessionStartInHour := if block.startTime > oneHourAgo then block.startTime else oneHourAgo
      let sessionEndInHour := if sessionEnd < now then sessionEnd else now
      if sessionEndInHour ≤ sessionStartInHour then acc
      else
        let totalSessionDuration := (sessionEnd - block.startTime) / 60000
        let hourDuration := (sessionEndInHour - sessionStartInHour) / 60000
        if totalSessionDuration > 0 then
          acc + getTotalTokensFromBlock block * (hourDuration / totalSessionDuration)
        else acc

/-- `CCUsageService.calculateHourlyBurnRate`: tokens per minute over the
trailing hour. -/
def calculateHourlyBurnRate (blocks : List SessionBlock) (now : ℚ) : ℚ :=
  if blocks.isEmpty then 0
  else (blocks.foldl (hourStep now) 0) / 60

/-- `CCUsageService.calculateVelocityFromBlocks`. -/
def calculateVelocityFromBlocks (blocks : List SessionBlock) (currentBurnRate : ℚ)
    (now : ℚ) : VelocityInfo :=
  let oneDayAgo := now - 24 * 60 * 60 * 1000
  let tokens24h := ((blocks.filter
    (fun b => !b.isGap && decide (oneDayAgo ≤ b.startTime))).map getTotalTokensFromBlock).sum
  let average24h := tokens24h / 24
  let oneWeekAgo := now - 7 * 24 * 60 * 60 * 1000
  let tokens7d := ((blocks.filter
    (fun b => !b.isGap && decide (oneWeekAgo ≤ b.startTime))).map getTotalTokensFromBlock).sum
  let average7d := tokens7d / (7 * 24)
  let trendPercent :=
    if average24h > 0 then ((currentBurnRate * 60 - average24h) / average24h) * 100 else 0
  let trend : Trend :=
    if jsAbs trendPercent > 15 then (if trendPercent > 0 then .increasing else .decreasing)
    else .stable
  { current := currentBurnRate * 60
    average24h := average24h
    average7d := average7d
    trend := trend
    trendPercent := (jsRound (trendPercent * 10) : ℚ) / 10
    peakHour := 14
    isAccelerating := decide (trend = .increasing) && decide (trendPercent > 20) }

/-- `CCUsageService.calculatePredictionInfo`. -/
def calculatePredictionInfo {T : Type} (env : Env T) (tokensUsed tokenLimit : ℚ)
    (velocity : VelocityInfo) (resetInfo : ResetTimeInfo) (now : ℚ) : PredictionInfo :=
  let tokensRemaining := jsMax 0 (tokenLimit - tokensUsed)
  let confidence : ℚ :=
    if velocity.current > 0 ∧ velocity.average24h > 0 then
      let c := jsMin 95 ((50 : ℚ) + 30)
      if jsAbs velocity.trendPercent > 50 then c - 20 else c
    else 50
  let hoursRemaining := tokensRemaining / velocity.current
  let depletionTime : Option ℚ :=
    if velocity.current > 0 then some (now + hoursRemaining * 60 * 60 * 1000) else none
  let daysRemaining : ℚ := if velocity.current > 0 then hoursRemaining / 24 else 0
  { depletionTime := depletionTime
    confidence := (jsRound confidence : ℚ)
    daysRemaining := (jsRound (daysRemaining * 10) : ℚ) / 10
    recommendedDailyLimit := env.recommendedDailyLimit tokensRemaining resetInfo
    onTrackForReset := env.isOnTrackForReset tokensUsed tokenLimit resetInfo }

/-- JavaScript object-map assignment `acc[name] = mu`: replace in place when
the key exists, else append. -/
def setModelEntry (models : List (String × ModelUsage)) (name : String)
    (mu : ModelUsage) : List (String × ModelUsage) :=
  if models.any (fun p => p.1 == name) then
    models.map (fun p => if p.1 == name then (p.1, mu) else p)
  else models ++ [(name, mu)]

/-- Initialise-if-absent then `+=` on a model entry, as in
`convertBlocksToDailyUsage`'s inner loop. -/
def addModelUsage (models : List (String × ModelUsage)) (name : String)
    (tk ck : ℚ) : List (String × ModelUsage) :=
  let models1 :=
    if models.any (fun p => p.1 == name) then models
    else models ++ [(name, { tokens := 0, cost := 0 })]
  models1.map (fun p =>
    if p.1 == name then (p.1, { tokens := p.2.tokens + tk, cost := p.2.cost + ck }) else p)

/-- The mapping applied to each loader-supplied daily record in
`parseBlocksData` and `getDefaultStats` (sum the four token kinds, drop
synthetic models, fold breakdowns into the model map). -/
def processDailyEntry (day : DailyDataEntry) : DailyUsage :=
  { date := day.date
    totalTokens :=
      day.inputTokens + day.outputTokens + day.cacheCreationTokens + day.cacheReadTokens
    totalCost := day.totalCost
    models := (day.modelBreakdowns.filter (fun mb => mb.modelName != "<synthetic>")).foldl
      (fun acc mb => setModelEntry acc mb.modelName
        { tokens := mb.inputTokens + mb.outputTokens + mb.cacheCreationTokens + mb.cacheReadTokens
          cost := mb.cost }) [] }

/-- Merging one block into its day bucket: add tokens and cost, then spread
the block totals evenly over its non-synthetic models (`Math.floor` on the
per-model token share). -/
def applyDailyUpdate (block : SessionBlock) (daily : DailyUsage) : DailyUsage :=
  let blockTokens := getTotalTokensFromBlock block
  let realModels := block.models.filter (fun m => m != "<synthetic>")
  let n : ℚ := realModels.length
  { date := daily.date
    totalTokens := daily.totalTokens + blockTokens
    totalCost := daily.totalCost + block.costUSD
    models := realModels.foldl
      (fun acc m => addModelUsage acc m ((jsFloor (blockTokens / n) : ℤ) : ℚ) (block.costUSD / n))
      daily.models }

/-- One iteration of the `convertBlocksToDailyUsage` loop: skip gap blocks,
create the day bucket on first sight (insertion order), then merge. -/
def dailyStep (acc : List DailyUsage) (block : SessionBlock) : List DailyUsage :=
  if block.isGap then acc
  else
    let date := dayKey block.startTime
    let acc1 :=
      if acc.any (fun d => d.date == date) then acc
      else acc ++ [{ date := date, totalTokens := 0, totalCost := 0, models := [] }]
    acc1.map (fun d => if d.date == date then applyDailyUpdate block d else d)

/-- Insert into a date-sorted list. -/
def insertByDate (d : DailyUsage) : List DailyUsage → List DailyUsage
  | [] => [d]
  | x :: xs => if d.date ≤ x.date then d :: x :: xs else x :: insertByDate d xs

/-- Sort day buckets by date (the source sorts the map's values by the date
string, which orders like the day key). -/
def sortByDate (l : List DailyUsage) : List DailyUsage := l.foldr insertByDate []

/-- `CCUsageService.convertBlocksToDailyUsage`. -/
def convertBlocksToDailyUsage (blocks : List SessionBlock) : List DailyUsage :=
  sortByDate (blocks.foldl dailyStep [])

/-- `CCUsageService.getEmptyDailyUsage`. -/
def getEmptyDailyUsage (now : ℚ) : DailyUsage :=
  { date := dayKey now, totalTokens := 0, totalCost := 0, models := [] }

/-- `CCUsageService.getTimeUntilActualReset`: formats the time until the
current active block's nominal end; distinguishable "No active session"
message when no active-block reference is held. -/
def getTimeUntilActualReset {T : Type} (st : ServiceState T) (now : ℚ) : ActualResetInfo :=
  match st.currentActiveBlock with
  | none =>
    { nextResetTime := none, timeUntilReset := 0,
      formattedTimeRemaining := "No active session" }
  | some block =>
    let timeUntilReset := jsMax 0 (block.endTime - now)
    let hours : ℤ := jsFloor (timeUntilReset / 3600000)
    let minutes : ℤ := jsFloor ((timeUntilReset - (hours : ℚ) * 3600000) / 60000)
    let formatted :=
      if timeUntilReset ≤ 0 then "Reset available"
      else if hours > 0 then
        toString hours ++ " hours " ++ toString minutes ++ " minutes left"
      else if minutes > 0 then toString minutes ++ " minutes left"
      else "Less than 1 minute left"
    { nextResetTime := some block.endTime, timeUntilReset := timeUntilReset,
      formattedTimeRemaining := formatted }

/-- `CCUsageService.getDefaultStats`: the well-defined default snapshot,
still merging loader-supplied daily data when present. -/
def getDefaultStats {T : Type} (env : Env T) (st : ServiceState T)
    (dailyData : Option (List DailyDataEntry)) (now : ℚ) : UsageStats T :=
  let today := dayKey now
  let processedDailyData : List DailyUsage :=
    match dailyData with
    | some l => if l.length > 0 then l.map processDailyEntry else []
    | none => []
  let todayData :=
    (processedDailyData.find? (fun d => d.date == today)).getD (getEmptyDailyUsage now)
  let velocity : VelocityInfo :=
    { current := 0, average24h := 0, average7d := 0, trend := .stable, trendPercent := 0,
      peakHour := 12, isAccelerating := false }
  let prediction : PredictionInfo :=
    { depletionTime := none, confidence := 0, daysRemaining := 0,
      recommendedDailyLimit := 0, onTrackForReset := true }
  { today := todayData
    thisWeek := processedDailyData.filter
      (fun d => decide (env.weekAgoMs ≤ (d.date : ℚ) * 86400000))
    thisMonth := processedDailyData.filter
      (fun d => decide (env.monthAgoMs ≤ (d.date : ℚ) * 86400000))
    burnRate := 0
    velocity := velocity
    prediction := prediction
    resetInfo := env.resetInfo
    actualResetInfo := getTimeUntilActualReset st now
    predictedDepleted := none
    currentPlan := st.currentPlan
    tokenLimit := getTokenLimit st.currentPlan
    tokensUsed := 0
    tokensRemaining := getTokenLimit st.currentPlan
    percentageUsed := 0
    sessionTracking := env.trackingFromBlocks [] }

/-- `CCUsageService.parseBlocksData`: the full recomputation on a non-empty
block list, returning the snapshot and the mutated instance state. All stages
observe the same clock instant `now`. -/
def parseBlocksData {T : Type} (env : Env T) (st : ServiceState T)
    (blocks : List SessionBlock) (dailyData : Option (List DailyDataEntry))
    (now : ℚ) : UsageStats T × ServiceState T :=
  match blocks.find? (fun b => b.isActive && !b.isGap) with
  | none =>
    let st1 := { st with currentActiveBlock := none }
    (getDefaultStats env st1 dailyData now, st1)
  | some activeBlock =>
    let st1 := { st with currentActiveBlock := some activeBlock }
    let tokensUsed := getTotalTokensFromBlock activeBlock
    let st2 :=
      if st1.currentPlan = .Custom ∨ (st1.currentPlan = .Pro ∧ tokensUsed > 7000) then
        let st2a := { st1 with detectedTokenLimit := getMaxTokensFromBlocks blocks }
        if tokensUsed > 7000 ∧ st2a.currentPlan = .Pro then
          { st2a with currentPlan := .Custom }
        else st2a
      else { st1 with detectedTokenLimit := getTokenLimit st1.currentPlan }
    let tokenLimit := st2.detectedTokenLimit
    let burnRate := calculateHourlyBurnRate blocks now
    let velocity := calculateVelocityFromBlocks blocks burnRate now
    let prediction := calculatePredictionInfo env tokensUsed tokenLimit velocity env.resetInfo now
    let processedDailyData : List DailyUsage :=
      match dailyData with
      | some l => l.map processDailyEntry
      | none => convertBlocksToDailyUsage blocks
    let todayData :=
      (processedDailyData.find? (fun d => d.date == env.todayKeyLocal)).getD
        (getEmptyDailyUsage now)
    ({ today := todayData
       thisWeek := processedDailyData.filter
         (fun d => decide (env.weekAgoMs ≤ (d.date : ℚ) * 86400000))
       thisMonth := processedDailyData.filter
         (fun d => decide (env.monthAgoMs ≤ (d.date : ℚ) * 86400000))
       burnRate := burnRate
       velocity := velocity
       prediction := prediction
       resetInfo := env.resetInfo
       actualResetInfo := getTimeUntilActualReset st2 now
       predictedDepleted := prediction.depletionTime
       currentPlan := st2.currentPlan
       tokenLimit := tokenLimit
       tokensUsed := tokensUsed
       tokensRemaining := jsMax 0 (tokenLimit - tokensUsed)
       percentageUsed := jsMin 100 ((tokensUsed / tokenLimit) * 100)
       sessionTracking := env.trackingFromBlocks blocks }, st2)

/-- Plan selections accepted by `updateConfiguration` (the explicit `auto`
sentinel included). -/
inductive PlanChoice where
  | Pro
  | Max5
  | Max20
  | Custom
  | auto
deriving DecidableEq

/-- Mapping of a plan selection to the stored plan: `auto` maps to `Custom`. -/
def planOfChoice : PlanChoice → Plan
  | .Pro => .Pro
  | .Max5 => .Max5
  | .Max20 => .Max20
  | .Custom => .Custom
  | .auto => .Custom

/-- A partial `UserConfiguration`: only the `plan` field is read by the
engine itself (timezone and reset hour are forwarded to the external
Reset-Time Calculator). -/
structure PartialConfig where
  plan : Option PlanChoice

/-- `CCUsageService.updateConfiguration`: update the plan when set, clear the
cached snapshot unconditionally. -/
def updateConfiguration {T : Type} (st : ServiceState T) (config : PartialConfig) :
    ServiceState T :=
  let st1 :=
    match config.plan with
    | some c => { st with currentPlan := planOfChoice c }
    | none => st
  { st1 with cachedStats := none }

/-- The body of `getUsageStats` past the cache check: await the loader
outcome, degrade to the default snapshot on rejection or on an empty block
list (neither path caches), otherwise parse and cache. -/
def getUsageStatsCompute {T : Type} (env : Env T) (st : ServiceState T) (now : ℚ)
    (loader : Except Unit (List SessionBlock × Option (List DailyDataEntry))) :
    GetResult T :=
  match loader with
  | .error _ => { stats := getDefaultStats env st none now, state := st, loaderCalled := true }
  | .ok (blocks, dailyData) =>
    if blocks.isEmpty then
      { stats := getDefaultStats env st dailyData now, state := st, loaderCalled := true }
    else
      let p := parseBlocksData env st blocks dailyData now
      { stats := p.1
        state := { p.2 with cachedStats := some p.1, lastUpdate := now,
                            historicalBlocks := blocks }
        loaderCalled := true }

/-- `CCUsageService.getUsageStats`: serve the cached snapshot when it is
fresher than the 3000 ms window, otherwise recompute. The function is total:
the loader's rejection is an ordinary input, never a propagated exception. -/
def getUsageStats {T : Type} (env : Env T) (st : ServiceState T) (now : ℚ)
    (loader : Except Unit (List SessionBlock × Option (List DailyDataEntry))) :
    GetResult T :=
  match st.cachedStats with
  | some s =>
    if now - st.lastUpdate < 3000 then { stats := s, state := st, loaderCalled := false }
    else getUsageStatsCompute env st now loader
  | none => getUsageStatsCompute env st now loader

/-- A trivial environment over the unit tracking summary, used to instantiate
theorems at concrete inputs. -/
def envU : Env Unit :=
  { resetInfo := { nextResetTime := 0, timeUntilReset := 0 },
    recommendedDailyLimit := fun _ _ => 0,
    isOnTrackForReset := fun _ _ _ => true,
    trackingFromBlocks := fun _ => (),
    todayKeyLocal := 0, weekAgoMs := 0, monthAgoMs := 0 }

/-- A fresh service state on the Pro plan (the constructor's initial field
values). -/
def stP : ServiceState Unit :=
  { cachedStats := none, lastUpdate := 0, currentPlan := .Pro,
    detectedTokenLimit := 7000, historicalBlocks := [], currentActiveBlock := none }

/-- An active, non-gap block holding `tk` input tokens. -/
def bAct (tk : ℚ) : SessionBlock :=
  { id := "a", startTime := 0, endTime := 18000000, actualEndTime := none,
    isActive := true, isGap := false,
    tokenCounts := { inputTokens := tk, outputTokens := 0,
                     cacheCreationInputTokens := 0, cacheReadInputTokens := 0 },
    costUSD := 0, models := [] }

/-- A closed (non-active), non-gap block holding `tk` input tokens. -/
def bHist (tk : ℚ) : SessionBlock :=
  { id := "h", startTime := 0, endTime := 18000000, actualEndTime := none,
    isActive := false, isGap := false,
    tokenCounts := { inputTokens := tk, outputTokens := 0,
                     cacheCreationInputTokens := 0, cacheReadInputTokens := 0 },
    costUSD := 0, models := [] }

/-- Any call that reaches the loader reports `loaderCalled = true`, whichever
branch the loader outcome takes. -/
theorem loaderCalled_of_no_cache {T : Type} (env : Env T) (st : ServiceState T) (now : ℚ)
    (loader : Except Unit (List SessionBlock × Option (List DailyDataEntry)))
    (h : st.cachedStats = none) :
    (getUsageStats env st now loader).loaderCalled = true := by
  unfold getUsageStats
  rw [h]
  unfold getUsageStatsCompute
  rcases loader with e | ⟨blocks, daily⟩
  · rfl
  · by_cases hb : blocks.isEmpty <;> simp [hb]

/-- C1: for every execution in which the cached snapshot is absent or stale
and the external loader rejects, `getUsageStats` does not propagate the
failure (the embedding is a total function and the rejection is an ordinary
input): it returns the default snapshot, which has `tokensUsed = 0`,
`percentageUsed = 0`, empty weekly and monthly histories, and a prediction
with `onTrackForReset = true`. -/
theorem claim_C1_loader_failure_defaults {T : Type} (env : Env T) (st : ServiceState T)
    (now : ℚ)
    (hstale : st.cachedStats = none ∨ 3000 ≤ now - st.lastUpdate) :
    (getUsageStats env st now (Except.error ())).stats = getDefaultStats env st none now ∧
    (getUsageStats env st now (Except.error ())).stats.tokensUsed = 0 ∧
    (getUsageStats env st now (Except.error ())).stats.percentageUsed = 0 ∧
    (getUsageStats env st now (Except.error ())).stats.thisWeek = [] ∧
    (getUsageStats env st now (Except.error ())).stats.thisMonth = [] ∧
    (getUsageStats env st now (Except.error ())).stats.prediction.onTrackForReset = true := by
  have hmain : (getUsageStats env st now (Except.error ())).stats =
      getDefaultStats env st none now := by
    cases hc : st.cachedStats with
    | none => simp [getUsageStats, getUsageStatsCompute, hc]
    | some s =>
      have h3 : ¬ (now - st.lastUpdate < 3000) := by
        rcases hstale with h | h
        · rw [hc] at h; cases h
        · linarith
      simp [getUsageStats, getUsageStatsCompute, hc, h3]
  refine ⟨hmain, ?_, ?_, ?_, ?_, ?_⟩ <;> rw [hmain] <;> simp [getDefaultStats]

/-- Witness for C1: a fresh (uncached) state with a rejecting loader. -/
theorem claim_C1_witness :
    ((stP.cachedStats = none ∨ 3000 ≤ (10000000 : ℚ) - stP.lastUpdate) ∧
      (getUsageStats envU stP 10000000 (Except.error ())).stats.tokensUsed = 0 ∧
      (getUsageStats envU stP 10000000 (Except.error ())).stats.percentageUsed = 0 ∧
      (getUsageStats envU stP 10000000 (Except.error ())).stats.thisWeek = [] ∧
      (getUsageStats envU stP 10000000 (Except.error ())).stats.thisMonth = [] ∧
      (getUsageStats envU stP 10000000 (Except.error ())).stats.prediction.onTrackForReset
        = true) :=
  ⟨Or.inl rfl,
    (claim_C1_loader_failure_defaults envU stP 10000000 (Or.inl rfl)).2⟩

/-- C8: `updateConfiguration` sets the current plan whenever the plan field is
present, mapping the explicit `auto` selection to `Custom`, leaves the plan
unchanged when the field is absent, clears the cached snapshot
unconditionally, and consequently the next `getUsageStats` call invokes the
loader afresh. -/
theorem claim_C8_updateConfiguration {T : Type} (st : ServiceState T)
    (config : PartialConfig) (env : Env T) (now : ℚ)
    (loader : Except Unit (List SessionBlock × Option (List DailyDataEntry))) :
    (updateConfiguration st config).cachedStats = none ∧
    (∀ c, config.plan = some c →
      (updateConfiguration st config).currentPlan = planOfChoice c) ∧
    (config.plan = none → (updateConfiguration st config).currentPlan = st.currentPlan) ∧
    (getUsageStats env (updateConfiguration st config) now loader).loaderCalled = true := by
  have hc : (updateConfiguration st config).cachedStats = none := by
    unfold updateConfiguration
    cases config.plan <;> rfl
  refine ⟨hc, ?_, ?_, loaderCalled_of_no_cache env _ now loader hc⟩
  · intro c h
    unfold updateConfiguration
    rw [h]
  · intro h
    unfold updateConfiguration
    rw [h]

/-- Witness for C8: an explicit `auto` selection on the fresh Pro state. -/
theorem claim_C8_witness :
    ((updateConfiguration stP { plan := some .auto }).cachedStats = none ∧
      (updateConfiguration stP { plan := some .auto }).currentPlan = Plan.Custom ∧
      (getUsageStats envU (updateConfiguration stP { plan := some .auto }) 0
        (Except.error ())).loaderCalled = true) :=
  ⟨(claim_C8_updateConfiguration stP { plan := some .auto } envU 0 (Except.error ())).1,
    (claim_C8_updateConfiguration stP { plan := some .auto } envU 0
      (Except.error ())).2.1 PlanChoice.auto rfl,
    (claim_C8_updateConfiguration stP { plan := some .auto } envU 0
      (Except.error ())).2.2.2⟩

/-- C9 (amended): when the cached snapshot is absent or stale and the loader
returns zero session blocks, the snapshot has `tokensUsed = 0` and
`percentageUsed = 0` unconditionally; the actual-reset view carries the
formatted message "No active session" provided no active-block reference
persists from an earlier computation (the zero-block early return does not
clear `currentActiveBlock`). -/
theorem claim_C9_zero_blocks {T : Type} (env : Env T) (st : ServiceState T) (now : ℚ)
    (daily : Option (List DailyDataEntry))
    (hstale : st.cachedStats = none ∨ 3000 ≤ now - st.lastUpdate) :
    (getUsageStats env st now (Except.ok ([], daily))).stats.tokensUsed = 0 ∧
    (getUsageStats env st now (Except.ok ([], daily))).stats.percentageUsed = 0 ∧
    (st.currentActiveBlock = none →
      (getUsageStats env st now
        (Except.ok ([], daily))).stats.actualResetInfo.formattedTimeRemaining
        = "No active session") := by
  have hmain : (getUsageStats env st now (Except.ok ([], daily))).stats =
      getDefaultStats env st daily now := by
    cases hc : st.cachedStats with
    | none => simp [getUsageStats, getUsageStatsCompute, hc]
    | some s =>
      have h3 : ¬ (now - st.lastUpdate < 3000) := by
        rcases hstale with h | h
        · rw [hc] at h; cases h
        · linarith
      simp [getUsageStats, getUsageStatsCompute, hc, h3]
  refine ⟨?_, ?_, ?_⟩
  · rw [hmain]; simp [getDefaultStats]
  · rw [hmain]; simp [getDefaultStats]
  · intro hactive
    rw [hmain]
    simp [getDefaultStats, getTimeUntilActualReset, hactive]

/-- Witness for C9 (amended) at the fresh state. -/
theorem claim_C9_witness :
    ((stP.cachedStats = none ∨ 3000 ≤ (10000000 : ℚ) - stP.lastUpdate) ∧
      (getUsageStats envU stP 10000000 (Except.ok ([], none))).stats.tokensUsed = 0 ∧
      (getUsageStats envU stP 10000000 (Except.ok ([], none))).stats.percentageUsed = 0 ∧
      (getUsageStats envU stP 10000000
        (Except.ok ([], none))).stats.actualResetInfo.formattedTimeRemaining
        = "No active session") :=
  ⟨Or.inl rfl,
    (claim_C9_zero_blocks envU stP 10000000 none (Or.inl rfl)).1,
    (claim_C9_zero_blocks envU stP 10000000 none (Or.inl rfl)).2.1,
    (claim_C9_zero_blocks envU stP 10000000 none (Or.inl rfl)).2.2 rfl⟩

/-- Counterexample to C9 as stated: the zero-block path does not clear the
active-block reference, so a state carrying one from an earlier computation
yields a reset message other than "No active session" even though the loader
returned zero blocks (here the message is a countdown to the stale block's
end time). -/
theorem claim_C9_counterexample :
    (getUsageStats envU { stP with currentActiveBlock := some (bAct 0) } 10000000
      (Except.ok ([], none))).stats.actualResetInfo.formattedTimeRemaining
      ≠ "No active session" := by
  norm_num [getUsageStats, getUsageStatsCompute, getDefaultStats, getTimeUntilActualReset,
    stP, bAct, envU, jsMax, jsFloor]
  decide

/-- Branch characterisation of `parseBlocksData` when the auto-detect
condition holds: the limit comes from `getMaxTokensFromBlocks` and the plan
is promoted exactly when usage under Pro exceeds 7000. -/
theorem parseBlocksData_autodetect {T : Type} (env : Env T) (st : ServiceState T)
    (blocks : List SessionBlock) (daily : Option (List DailyDataEntry)) (now : ℚ)
    (ab : SessionBlock)
    (hfind : blocks.find? (fun b => b.isActive && !b.isGap) = some ab)
    (hcond : st.currentPlan = .Custom ∨
      (st.currentPlan = .Pro ∧ getTotalTokensFromBlock ab > 7000)) :
    (parseBlocksData env st blocks daily now).1.tokenLimit = getMaxTokensFromBlocks blocks ∧
    (parseBlocksData env st blocks daily now).1.currentPlan =
      (if getTotalTokensFromBlock ab > 7000 ∧ st.currentPlan = .Pro then .Custom
       else st.currentPlan) := by
  unfold parseBlocksData
  rw [hfind]
  simp only [if_pos hcond]
  by_cases hp : getTotalTokensFromBlock ab > 7000 ∧ st.currentPlan = .Pro
  · simp [hp]
  · simp [hp]

/-- Branch characterisation of `parseBlocksData` when the auto-detect
condition fails: the limit is the selected plan's fixed threshold and the
plan is unchanged. -/
theorem parseBlocksData_fixed {T : Type} (env : Env T) (st : ServiceState T)
    (blocks : List SessionBlock) (daily : Option (List DailyDataEntry)) (now : ℚ)
    (ab : SessionBlock)
    (hfind : blocks.find? (fun b => b.isActive && !b.isGap) = some ab)
    (hcond : ¬ (st.currentPlan = .Custom ∨
      (st.currentPlan = .Pro ∧ getTotalTokensFromBlock ab > 7000))) :
    (parseBlocksData env st blocks daily now).1.tokenLimit = getTokenLimit st.currentPlan ∧
    (parseBlocksData env st blocks daily now).1.currentPlan = st.currentPlan := by
  unfold parseBlocksData
  rw [hfind]
  simp only [if_neg hcond]
  simp

/-- The historical maximum that the code's auto-detection actually computes:
the maximum total-token count over non-gap, non-active blocks, falling back
to 7000 whenever that maximum is not positive (so also when every such block
has zero tokens). -/
def histMaxPos (blocks : List SessionBlock) : ℚ :=
  let m := ((blocks.filter (fun b => !b.isGap && !b.isActive)).map
    getTotalTokensFromBlock).foldl max 0
  if m > 0 then m else 7000

/-- The spec's wording of the auto-detected limit: the maximum total-token
count over all non-gap, non-active blocks, falling back to 7000 only when no
such block exists. -/
def claimHistMax (blocks : List SessionBlock) : ℚ :=
  match (blocks.filter (fun b => !b.isGap && !b.isActive)).map getTotalTokensFromBlock with
  | [] => 7000
  | t :: ts => ts.foldl max t

/-- The imperative running-maximum step is `max`. -/
theorem maxStep_eq (acc t : ℚ) : (if t > acc then t else acc) = max acc t := by
  split_ifs with h
  · exact (max_eq_right h.le).symm
  · exact (max_eq_left (not_lt.mp h)).symm

/-- The `getMaxTokensFromBlocks` loop equals a fold of its own step over the
filtered, mapped block list. -/
theorem maxLoop_skip (blocks : List SessionBlock) :
    ∀ acc : ℚ, blocks.foldl
      (fun acc block =>
        if !block.isGap && !block.isActive then
          let totalTokens := getTotalTokensFromBlock block
          if totalTokens > acc then totalTokens else acc
        else acc) acc
      = ((blocks.filter (fun b => !b.isGap && !b.isActive)).map
          getTotalTokensFromBlock).foldl
            (fun acc t => if t > acc then t else acc) acc := by
  induction blocks with
  | nil => intro acc; rfl
  | cons b bs ih =>
    intro acc
    rw [List.foldl_cons, List.filter_cons]
    by_cases hb : (!b.isGap && !b.isActive) = true
    · simp only [hb, if_true, List.map_cons, List.foldl_cons]
      exact ih _
    · have hb2 : (!b.isGap && !b.isActive) = false := by
        revert hb
        cases (!b.isGap && !b.isActive) <;> simp
      rw [hb2]
      simp only [Bool.false_eq_true, if_false]
      exact ih acc

/-- The `getMaxTokensFromBlocks` loop is a `max`-fold over the filtered,
mapped block list. -/
theorem maxLoop_eq (blocks : List SessionBlock) (acc : ℚ) :
    blocks.foldl
      (fun acc block =>
        if !block.isGap && !block.isActive then
          let totalTokens := getTotalTokensFromBlock block
          if totalTokens > acc then totalTokens else acc
        else acc) acc
      = ((blocks.filter (fun b => !b.isGap && !b.isActive)).map
          getTotalTokensFromBlock).foldl max acc := by
  rw [maxLoop_skip]
  exact List.foldl_ext _ _ acc (fun a t _ => maxStep_eq a t)

/-- `getMaxTokensFromBlocks` computes the positive-fallback historical
maximum. -/
theorem getMaxTokensFromBlocks_eq_histMaxPos (blocks : List SessionBlock) :
    getMaxTokensFromBlocks blocks = histMaxPos blocks := by
  unfold getMaxTokensFromBlocks histMaxPos
  rw [maxLoop_eq]

/-- C2 (amended): for every recomputation whose block list contains an active
non-gap block, if the plan is Custom, or Pro with the active block's total
exceeding 7000, the effective limit is the maximum total-token count over
non-gap, non-active blocks — falling back to 7000 when no such block exists
OR when every such block has zero total tokens (the code tests the running
maximum for positivity, not the existence of history) — and usage over 7000
under Pro promotes the plan to Custom; otherwise the limit is the selected
plan's fixed threshold. -/
theorem claim_C2_limit_autodetect {T : Type} (env : Env T) (st : ServiceState T)
    (blocks : List SessionBlock) (daily : Option (List DailyDataEntry)) (now : ℚ)
    (ab : SessionBlock)
    (hfind : blocks.find? (fun b => b.isActive && !b.isGap) = some ab) :
    ((st.currentPlan = .Custom ∨
        (st.currentPlan = .Pro ∧ getTotalTokensFromBlock ab > 7000)) →
      (parseBlocksData env st blocks daily now).1.tokenLimit = histMaxPos blocks ∧
      (getTotalTokensFromBlock ab > 7000 ∧ st.currentPlan = .Pro →
        (parseBlocksData env st blocks daily now).1.currentPlan = .Custom)) ∧
    (¬ (st.currentPlan = .Custom ∨
        (st.currentPlan = .Pro ∧ getTotalTokensFromBlock ab > 7000)) →
      (parseBlocksData env st blocks daily now).1.tokenLimit
        = getTokenLimit st.currentPlan) := by
  constructor
  · intro hcond
    obtain ⟨hl, hp⟩ := parseBlocksData_autodetect env st blocks daily now ab hfind hcond
    refine ⟨by rw [hl, getMaxTokensFromBlocks_eq_histMaxPos], ?_⟩
    intro hpromote
    rw [hp, if_pos hpromote]
  · intro hcond
    exact (parseBlocksData_fixed env st blocks daily now ab hfind hcond).1

/-- Witness for C2 (amended): Pro plan, active block of 8000 tokens, one
closed historical block of 6000 tokens; the limit auto-detects to 6000 and
the plan promotes to Custom. -/
theorem claim_C2_witness :
    ([bAct 8000, bHist 6000].find? (fun b => b.isActive && !b.isGap) = some (bAct 8000)) ∧
    (parseBlocksData envU stP [bAct 8000, bHist 6000] (some []) 10000000).1.tokenLimit
      = histMaxPos [bAct 8000, bHist 6000] ∧
    (parseBlocksData envU stP [bAct 8000, bHist 6000] (some []) 10000000).1.currentPlan
      = Plan.Custom ∧
    histMaxPos [bAct 8000, bHist 6000] = 6000 := by
  have hfind : [bAct 8000, bHist 6000].find? (fun b => b.isActive && !b.isGap)
      = some (bAct 8000) := rfl
  have hcond : stP.currentPlan = .Custom ∨
      (stP.currentPlan = .Pro ∧ getTotalTokensFromBlock (bAct 8000) > 7000) :=
    Or.inr ⟨rfl, by norm_num [getTotalTokensFromBlock, bAct]⟩
  obtain ⟨h1, h2⟩ := (claim_C2_limit_autodetect envU stP [bAct 8000, bHist 6000] (some [])
    10000000 (bAct 8000) hfind).1 hcond
  exact ⟨hfind, h1, h2 ⟨by norm_num [getTotalTokensFromBlock, bAct], rfl⟩,
    by norm_num [histMaxPos, bAct, bHist, getTotalTokensFromBlock, max_def]⟩

/-- Counterexample to C2 as stated: with a Pro plan, an active block of 8000
tokens, and a single non-gap, non-active historical block of zero total
tokens, the code's limit is the 7000 fallback, while the claimed maximum over
the (existing) historical blocks is 0. -/
theorem claim_C2_counterexample :
    stP.currentPlan = Plan.Pro ∧
    getTotalTokensFromBlock (bAct 8000) > 7000 ∧
    (parseBlocksData envU stP [bAct 8000, bHist 0] (some []) 10000000).1.tokenLimit = 7000 ∧
    claimHistMax [bAct 8000, bHist 0] = 0 ∧
    (parseBlocksData envU stP [bAct 8000, bHist 0] (some []) 10000000).1.tokenLimit
      ≠ claimHistMax [bAct 8000, bHist 0] := by
  refine ⟨rfl, by norm_num [getTotalTokensFromBlock, bAct], ?_, ?_, ?_⟩
  · norm_num [parseBlocksData, bAct, bHist, stP, envU, getTotalTokensFromBlock,
      getMaxTokensFromBlocks, List.find?]
  · norm_num [claimHistMax, bAct, bHist, getTotalTokensFromBlock]
  · norm_num [parseBlocksData, claimHistMax, bAct, bHist, stP, envU,
      getTotalTokensFromBlock, getMaxTokensFromBlocks, List.find?]

/-- C3 (amended): an active block of 7500 total tokens under the Pro plan
with no non-gap, non-active historical block auto-promotes the plan to Custom
and the effective limit falls back to the Pro tier's 7000 threshold (not to
the 500000 open default the claim names). -/
theorem claim_C3_promoted_fallback {T : Type} (env : Env T) (st : ServiceState T)
    (blocks : List SessionBlock) (daily : Option (List DailyDataEntry)) (now : ℚ)
    (ab : SessionBlock)
    (hfind : blocks.find? (fun b => b.isActive && !b.isGap) = some ab)
    (hplan : st.currentPlan = .Pro)
    (htok : getTotalTokensFromBlock ab = 7500)
    (hhist : blocks.filter (fun b => !b.isGap && !b.isActive) = []) :
    (parseBlocksData env st blocks daily now).1.currentPlan = Plan.Custom ∧
    (parseBlocksData env st blocks daily now).1.tokenLimit = 7000 := by
  have hgt : getTotalTokensFromBlock ab > 7000 := by rw [htok]; norm_num
  have hcond : st.currentPlan = .Custom ∨
      (st.currentPlan = .Pro ∧ getTotalTokensFromBlock ab > 7000) := Or.inr ⟨hplan, hgt⟩
  obtain ⟨hl, hp⟩ := parseBlocksData_autodetect env st blocks daily now ab hfind hcond
  constructor
  · rw [hp, if_pos ⟨hgt, hplan⟩]
  · rw [hl, getMaxTokensFromBlocks_eq_histMaxPos]
    unfold histMaxPos
    rw [hhist]
    norm_num

/-- Witness for C3 (amended): the single-block scenario itself. -/
theorem claim_C3_witness :
    ([bAct 7500].find? (fun b => b.isActive && !b.isGap) = some (bAct 7500)) ∧
    stP.currentPlan = Plan.Pro ∧
    getTotalTokensFromBlock (bAct 7500) = 7500 ∧
    ([bAct 7500].filter (fun b => !b.isGap && !b.isActive) = []) ∧
    (parseBlocksData envU stP [bAct 7500] (some []) 10000000).1.currentPlan = Plan.Custom ∧
    (parseBlocksData envU stP [bAct 7500] (some []) 10000000).1.tokenLimit = 7000 :=
  ⟨rfl, rfl, by norm_num [getTotalTokensFromBlock, bAct], rfl,
    claim_C3_promoted_fallback envU stP [bAct 7500] (some []) 10000000 (bAct 7500) rfl rfl
      (by norm_num [getTotalTokensFromBlock, bAct]) rfl⟩

/-- Counterexample to C3 as stated: in exactly the claimed scenario the
effective limit is 7000, not the claimed 500000 open default. -/
theorem claim_C3_counterexample :
    (parseBlocksData envU stP [bAct 7500] (some []) 10000000).1.currentPlan = Plan.Custom ∧
    (parseBlocksData envU stP [bAct 7500] (some []) 10000000).1.tokenLimit = 7000 ∧
    (parseBlocksData envU stP [bAct 7500] (some []) 10000000).1.tokenLimit ≠ 500000 := by
  refine ⟨?_, ?_, ?_⟩ <;>
    norm_num [parseBlocksData, bAct, stP, envU, getTotalTokensFromBlock,
      getMaxTokensFromBlocks, List.find?]

/-- C7 (amended): when the first call misses the cache and the loader
delivers a non-empty block list — the only path that populates the cache —
any second call within 3 seconds of the first call's instant, with no
`updateConfiguration` in between, returns the identical snapshot and performs
no new loader invocation. (The restriction to a caching first call is forced
by the counterexample: the loader-failure and zero-block paths do not cache,
so a subsequent call recomputes.) -/
theorem claim_C7_cache_idempotence {T : Type} (env : Env T) (st : ServiceState T)
    (t1 t2 : ℚ) (blocks : List SessionBlock) (daily : Option (List DailyDataEntry))
    (loader2 : Except Unit (List SessionBlock × Option (List DailyDataEntry)))
    (hstale : st.cachedStats = none ∨ 3000 ≤ t1 - st.lastUpdate)
    (hblocks : blocks ≠ [])
    (hwin : t2 - t1 < 3000) :
    (getUsageStats env (getUsageStats env st t1 (Except.ok (blocks, daily))).state t2
        loader2).stats
      = (getUsageStats env st t1 (Except.ok (blocks, daily))).stats ∧
    (getUsageStats env (getUsageStats env st t1 (Except.ok (blocks, daily))).state t2
        loader2).loaderCalled = false := by
  have h1 : getUsageStats env st t1 (Except.ok (blocks, daily)) =
      getUsageStatsCompute env st t1 (Except.ok (blocks, daily)) := by
    cases hc : st.cachedStats with
    | none => simp [getUsageStats, hc]
    | some s =>
      have h3 : ¬ (t1 - st.lastUpdate < 3000) := by
        rcases hstale with h | h
        · rw [hc] at h; cases h
        · linarith
      simp [getUsageStats, hc, h3]
  have hne : blocks.isEmpty = false := by
    cases blocks with
    | nil => exact absurd rfl hblocks
    | cons a l => rfl
  rw [h1]
  unfold getUsageStatsCompute
  simp only [hne, Bool.false_eq_true, if_false]
  constructor
  · simp [getUsageStats, hwin]
  · simp [getUsageStats, hwin]

/-- Witness for C7 (amended): a successful first computation followed 1
second later by a call whose loader outcome is irrelevant. -/
theorem claim_C7_witness :
    (stP.cachedStats = none ∨ 3000 ≤ (10000000 : ℚ) - stP.lastUpdate) ∧
    ([bHist 100] ≠ ([] : List SessionBlock)) ∧
    ((10001000 : ℚ) - 10000000 < 3000) ∧
    (getUsageStats envU
        (getUsageStats envU stP 10000000 (Except.ok ([bHist 100], some []))).state 10001000
        (Except.error ())).stats
      = (getUsageStats envU stP 10000000 (Except.ok ([bHist 100], some []))).stats ∧
    (getUsageStats envU
        (getUsageStats envU stP 10000000 (Except.ok ([bHist 100], some []))).state 10001000
        (Except.error ())).loaderCalled = false :=
  ⟨Or.inl rfl, by simp, by norm_num,
    (claim_C7_cache_idempotence envU stP 10000000 10001000 [bHist 100] (some [])
      (Except.error ()) (Or.inl rfl) (by simp) (by norm_num)).1,
    (claim_C7_cache_idempotence envU stP 10000000 10001000 [bHist 100] (some [])
      (Except.error ()) (Or.inl rfl) (by simp) (by norm_num)).2⟩

/-- Counterexample to C7 as stated: when the first call's loader rejects, no
snapshot is cached, so a second call only 1 second later still invokes the
loader — contradicting the claim that every second call within 3 seconds is
served from cache with no new loader invocation. -/
theorem claim_C7_counterexample :
    ((10001000 : ℚ) - 10000000 < 3000) ∧
    (getUsageStats envU
        (getUsageStats envU stP 10000000 (Except.error ())).state 10001000
        (Except.error ())).loaderCalled = true :=
  ⟨by norm_num, rfl⟩

/-- The confidence value C6 claims: start at 50, add 30 if both the current
and 24h-average burn rates are positive, subtract 20 if the trend percent's
magnitude exceeds 50, clamp to [0, 95]. -/
def claimConfidence (v : VelocityInfo) : ℚ :=
  min 95 (max 0 (50 + (if v.current > 0 ∧ v.average24h > 0 then 30 else 0)
    - (if jsAbs v.trendPercent > 50 then 20 else 0)))

/-- C6 (amended): the prediction confidence equals 50 plus 30 when both the
current and 24h-average burn rates are positive, minus 20 when ADDITIONALLY
(both rates positive and) the trend percent's magnitude exceeds 50, clamped
to [0, 95]; the volatility subtraction happens only inside the
data-available branch, so without positive rates the confidence stays 50
regardless of the trend percent. -/
theorem claim_C6_confidence {T : Type} (env : Env T) (tokensUsed tokenLimit : ℚ)
    (v : VelocityInfo) (ri : ResetTimeInfo) (now : ℚ) :
    (calculatePredictionInfo env tokensUsed tokenLimit v ri now).confidence =
      min 95 (max 0 (50 + (if v.current > 0 ∧ v.average24h > 0 then 30 else 0)
        - (if (v.current > 0 ∧ v.average24h > 0) ∧ jsAbs v.trendPercent > 50 then 20
           else 0))) := by
  unfold calculatePredictionInfo
  by_cases hb : v.current > 0 ∧ v.average24h > 0
  · by_cases ht : jsAbs v.trendPercent > 50
    · simp only [hb, ht, if_true, if_pos (And.intro hb ht)]
      norm_num [jsMin, jsRound, jsFloor, min_def, max_def]
    · have hn : ¬ ((v.current > 0 ∧ v.average24h > 0) ∧ jsAbs v.trendPercent > 50) :=
        fun h => ht h.2
      simp only [hb, ht, if_true, if_false, if_neg hn]
      norm_num [jsMin, jsRound, jsFloor, min_def, max_def]
  · have hn : ¬ ((v.current > 0 ∧ v.average24h > 0) ∧ jsAbs v.trendPercent > 50) :=
      fun h => hb h.1
    simp only [hb, if_false, if_neg hn, if_neg hb]
    norm_num [jsRound, jsFloor, min_def, max_def]

/-- A velocity input with zero current rate, positive 24h average and a trend
percent of magnitude above 50. -/
def vCex : VelocityInfo :=
  { current := 0, average24h := 5, average7d := 0, trend := .stable, trendPercent := 60,
    peakHour := 14, isAccelerating := false }

/-- Counterexample to C6 as stated: with current rate 0, 24h average 5 and
trend percent 60, the code's confidence is 50 (the −20 volatility subtraction
lives inside the both-rates-positive branch), while the claimed formula gives
50 − 20 = 30. -/
theorem claim_C6_counterexample :
    (calculatePredictionInfo envU 0 7000 vCex { nextResetTime := 0, timeUntilReset := 0 }
      0).confidence = 50 ∧
    claimConfidence vCex = 30 ∧
    (calculatePredictionInfo envU 0 7000 vCex { nextResetTime := 0, timeUntilReset := 0 }
      0).confidence ≠ claimConfidence vCex := by
  refine ⟨?_, ?_, ?_⟩ <;>
    norm_num [calculatePredictionInfo, claimConfidence, vCex, envU, jsMin, jsMax, jsAbs,
      jsRound, jsFloor, min_def, max_def]

/-- The trend percent as C5 states it: ((current hourly rate − 24h average)
/ 24h average) × 100, yielding 0 when the 24h average is 0. -/
def specTrendPercent (current average24h : ℚ) : ℚ :=
  if average24h = 0 then 0 else ((current - average24h) / average24h) * 100

/-- With a nonnegative average, the code's positivity-guarded trend percent
matches the zero-guarded formula of the claim. -/
theorem codeTrendPercent_eq_spec (c a : ℚ) (ha : 0 ≤ a) :
    (if a > 0 then ((c - a) / a) * 100 else 0) = specTrendPercent c a := by
  unfold specTrendPercent
  by_cases h : a = 0
  · subst h; simp
  · have hpos : a > 0 := lt_of_le_of_ne ha (Ne.symm h)
    rw [if_pos hpos, if_neg h]

/-- Characterisation of the trend classifier: increasing exactly above 15,
decreasing exactly below −15, stable exactly when the magnitude is at most
15. -/
theorem trendClass_spec (tp : ℚ) :
    ((if jsAbs tp > 15 then (if tp > 0 then Trend.increasing else Trend.decreasing)
        else Trend.stable) = Trend.increasing ↔ tp > 15) ∧
    ((if jsAbs tp > 15 then (if tp > 0 then Trend.increasing else Trend.decreasing)
        else Trend.stable) = Trend.decreasing ↔ tp < -15) ∧
    ((if jsAbs tp > 15 then (if tp > 0 then Trend.increasing else Trend.decreasing)
        else Trend.stable) = Trend.stable ↔ jsAbs tp ≤ 15) := by
  unfold jsAbs
  split_ifs with h1 h2 <;>
    refine ⟨?_, ?_, ?_⟩ <;> constructor <;> intro h <;>
      first
        | rfl
        | linarith
        | exact absurd h (by decide)

/-- C5: for every block list (with nonnegative token counts) and burn rate,
the velocity computation's trend percent is ((current hourly rate − 24h
average) / 24h average) × 100 with 0 when the average is 0 (the stored
`trendPercent` field is that value rounded to one decimal); the trend is
increasing/decreasing by sign exactly when the magnitude exceeds 15 and
stable otherwise; `isAccelerating` holds exactly when the trend is
increasing and the trend percent exceeds 20; a 20% increase over the 24h
average classifies as increasing and a 10% increase stays stable. -/
theorem claim_C5_velocity_trend (blocks : List SessionBlock) (currentBurnRate now : ℚ)
    (hnn : ∀ b ∈ blocks, 0 ≤ getTotalTokensFromBlock b) :
    ((calculateVelocityFromBlocks blocks currentBurnRate now).trendPercent
      = (jsRound (specTrendPercent
          (calculateVelocityFromBlocks blocks currentBurnRate now).current
          (calculateVelocityFromBlocks blocks currentBurnRate now).average24h * 10) : ℚ)
        / 10) ∧
    ((calculateVelocityFromBlocks blocks currentBurnRate now).trend = Trend.increasing ↔
      specTrendPercent (calculateVelocityFromBlocks blocks currentBurnRate now).current
        (calculateVelocityFromBlocks blocks currentBurnRate now).average24h > 15) ∧
    ((calculateVelocityFromBlocks blocks currentBurnRate now).trend = Trend.decreasing ↔
      specTrendPercent (calculateVelocityFromBlocks blocks currentBurnRate now).current
        (calculateVelocityFromBlocks blocks currentBurnRate now).average24h < -15) ∧
    ((calculateVelocityFromBlocks blocks currentBurnRate now).trend = Trend.stable ↔
      jsAbs (specTrendPercent (calculateVelocityFromBlocks blocks currentBurnRate now).current
        (calculateVelocityFromBlocks blocks currentBurnRate now).average24h) ≤ 15) ∧
    ((calculateVelocityFromBlocks blocks currentBurnRate now).isAccelerating = true ↔
      ((calculateVelocityFromBlocks blocks currentBurnRate now).trend = Trend.increasing ∧
        specTrendPercent (calculateVelocityFromBlocks blocks currentBurnRate now).current
          (calculateVelocityFromBlocks blocks currentBurnRate now).average24h > 20)) ∧
    ((calculateVelocityFromBlocks blocks currentBurnRate now).average24h > 0 →
      (calculateVelocityFromBlocks blocks currentBurnRate now).current
        = (calculateVelocityFromBlocks blocks currentBurnRate now).average24h * (12/10) →
      (calculateVelocityFromBlocks blocks currentBurnRate now).trend = Trend.increasing) ∧
    ((calculateVelocityFromBlocks blocks currentBurnRate now).average24h > 0 →
      (calculateVelocityFromBlocks blocks currentBurnRate now).current
        = (calculateVelocityFromBlocks blocks currentBurnRate now).average24h * (11/10) →
      (calculateVelocityFromBlocks blocks currentBurnRate now).trend = Trend.stable) := by
  have ha : 0 ≤ (calculateVelocityFromBlocks blocks currentBurnRate now).average24h := by
    have h0 : (calculateVelocityFromBlocks blocks currentBurnRate now).average24h =
        ((blocks.filter (fun b => !b.isGap &&
          decide (now - 24 * 60 * 60 * 1000 ≤ b.startTime))).map
            getTotalTokensFromBlock).sum / 24 := rfl
    rw [h0]
    refine div_nonneg (List.sum_nonneg ?_) (by norm_num)
    intro x hx
    obtain ⟨b, hb, rfl⟩ := List.mem_map.mp hx
    exact hnn b (List.mem_of_mem_filter hb)
  have htp0 : (if (calculateVelocityFromBlocks blocks currentBurnRate now).average24h > 0
      then (((calculateVelocityFromBlocks blocks currentBurnRate now).current -
        (calculateVelocityFromBlocks blocks currentBurnRate now).average24h) /
        (calculateVelocityFromBlocks blocks currentBurnRate now).average24h) * 100 else 0)
      = specTrendPercent (calculateVelocityFromBlocks blocks currentBurnRate now).current
          (calculateVelocityFromBlocks blocks currentBurnRate now).average24h :=
    codeTrendPercent_eq_spec _ _ ha
  have htrendPercent : (calculateVelocityFromBlocks blocks currentBurnRate now).trendPercent
      = (jsRound ((if (calculateVelocityFromBlocks blocks currentBurnRate now).average24h > 0
          then (((calculateVelocityFromBlocks blocks currentBurnRate now).current -
            (calculateVelocityFromBlocks blocks currentBurnRate now).average24h) /
            (calculateVelocityFromBlocks blocks currentBurnRate now).average24h) * 100
          else 0) * 10) : ℚ) / 10 := rfl
  have htrend : (calculateVelocityFromBlocks blocks currentBurnRate now).trend
      = (if jsAbs (if (calculateVelocityFromBlocks blocks currentBurnRate now).average24h > 0
            then (((calculateVelocityFromBlocks blocks currentBurnRate now).current -
              (calculateVelocityFromBlocks blocks currentBurnRate now).average24h) /
              (calculateVelocityFromBlocks blocks currentBurnRate now).average24h) * 100
            else 0) > 15
         then (if (if (calculateVelocityFromBlocks blocks currentBurnRate now).average24h > 0
            then (((calculateVelocityFromBlocks blocks currentBurnRate now).current -
              (calculateVelocityFromBlocks blocks currentBurnRate now).average24h) /
              (calculateVelocityFromBlocks blocks currentBurnRate now).average24h) * 100
            else 0) > 0 then Trend.increasing else Trend.decreasing)
         else Trend.stable) := rfl
  have haccel : (calculateVelocityFromBlocks blocks currentBurnRate now).isAccelerating
      = (decide ((calculateVelocityFromBlocks blocks currentBurnRate now).trend
          = Trend.increasing) &&
        decide ((if (calculateVelocityFromBlocks blocks currentBurnRate now).average24h > 0
          then (((calculateVelocityFromBlocks blocks currentBurnRate now).current -
            (calculateVelocityFromBlocks blocks currentBurnRate now).average24h) /
            (calculateVelocityFromBlocks blocks currentBurnRate now).average24h) * 100
          else 0) > 20)) := rfl
  obtain ⟨hinc, hdec, hstab⟩ := trendClass_spec (specTrendPercent
    (calculateVelocityFromBlocks blocks currentBurnRate now).current
    (calculateVelocityFromBlocks blocks currentBurnRate now).average24h)
  rw [htp0] at htrendPercent htrend haccel
  refine ⟨htrendPercent, ?_, ?_, ?_, ?_, ?_, ?_⟩
  · rw [htrend]; exact hinc
  · rw [htrend]; exact hdec
  · rw [htrend]; exact hstab
  · rw [haccel]
    simp only [Bool.and_eq_true, decide_eq_true_eq]
  · intro hpos hc
    have h20 : specTrendPercent
        (calculateVelocityFromBlocks blocks currentBurnRate now).current
        (calculateVelocityFromBlocks blocks currentBurnRate now).average24h = 20 := by
      rw [hc]
      unfold specTrendPercent
      rw [if_neg (ne_of_gt hpos)]
      field_simp
      ring
    rw [htrend, h20]
    norm_num [jsAbs]
  · intro hpos hc
    have h10 : specTrendPercent
        (calculateVelocityFromBlocks blocks currentBurnRate now).current
        (calculateVelocityFromBlocks blocks currentBurnRate now).average24h = 10 := by
      rw [hc]
      unfold specTrendPercent
      rw [if_neg (ne_of_gt hpos)]
      field_simp
      ring
    rw [htrend, h10]
    norm_num [jsAbs]

/-- Witness for C5: one non-gap block of 2400 tokens in the trailing day and
a burn rate of 2 tokens/minute give a trend percent of 20 and an increasing
trend. -/
theorem claim_C5_witness :
    (∀ b ∈ [bHist 2400], 0 ≤ getTotalTokensFromBlock b) ∧
    ((calculateVelocityFromBlocks [bHist 2400] 2 10000000).trend = Trend.increasing ↔
      specTrendPercent (calculateVelocityFromBlocks [bHist 2400] 2 10000000).current
        (calculateVelocityFromBlocks [bHist 2400] 2 10000000).average24h > 15) ∧
    (calculateVelocityFromBlocks [bHist 2400] 2 10000000).trend = Trend.increasing := by
  have hnn : ∀ b ∈ [bHist 2400], 0 ≤ getTotalTokensFromBlock b := by
    intro b hb
    rw [List.mem_singleton] at hb
    subst hb
    norm_num [getTotalTokensFromBlock, bHist]
  have hiff := (claim_C5_velocity_trend [bHist 2400] 2 10000000 hnn).2.1
  have htp : specTrendPercent (calculateVelocityFromBlocks [bHist 2400] 2 10000000).current
      (calculateVelocityFromBlocks [bHist 2400] 2 10000000).average24h = 20 := by
    have hc : (calculateVelocityFromBlocks [bHist 2400] 2 10000000).current = 120 := by
      norm_num [calculateVelocityFromBlocks]
    have ha : (calculateVelocityFromBlocks [bHist 2400] 2 10000000).average24h = 100 := by
      norm_num [calculateVelocityFromBlocks, bHist, getTotalTokensFromBlock]
    rw [hc, ha]
    norm_num [specTrendPercent]
  exact ⟨hnn, hiff, hiff.mpr (by rw [htp]; norm_num)⟩

/-- The burn-rate filter C4 states: non-gap blocks whose effective end (now
if active; actual end if closed early; else nominal end) is not before now
minus 60 minutes. -/
def hourRelevant (now : ℚ) (block : SessionBlock) : Bool :=
  !block.isGap && decide (now - 3600000 ≤ sessionEndOf now block)

/-- The per-block contribution C4 states: the block's total tokens times the
ratio of its overlap with the trailing hour to the full block duration in
minutes, zero when the overlap is empty or non-positive. -/
def hourContribution (now : ℚ) (block : SessionBlock) : ℚ :=
  let oneHourAgo := now - 3600000
  let sessionEnd := sessionEndOf now block
  let s := if block.startTime > oneHourAgo then block.startTime else oneHourAgo
  let e := if sessionEnd < now then sessionEnd else now
  if e ≤ s then 0
  else getTotalTokensFromBlock block *
    (((e - s) / 60000) / ((sessionEnd - block.startTime) / 60000))

/-- One burn-rate loop iteration adds exactly the claimed contribution of a
relevant block (the loop's duration-positivity guard is subsumed: a positive
overlap forces a positive duration). -/
theorem hourStep_eq (now acc : ℚ) (b : SessionBlock) :
    hourStep now acc b = acc + (if hourRelevant now b then hourContribution now b else 0) := by
  by_cases hgap : b.isGap = true
  · have h1 : hourRelevant now b = false := by simp [hourRelevant, hgap]
    rw [h1]
    simp [hourStep, hgap]
  · have hgap2 : b.isGap = false := by revert hgap; cases b.isGap <;> simp
    by_cases hend : sessionEndOf now b < now - 3600000
    · have h1 : hourRelevant now b = false := by
        simp only [hourRelevant, hgap2, Bool.not_false, Bool.true_and,
          decide_eq_false_iff_not, not_le]
        exact hend
      rw [h1]
      simp [hourStep, hgap2, hend]
    · have h1 : hourRelevant now b = true := by
        simp only [hourRelevant, hgap2, Bool.not_false, Bool.true_and,
          decide_eq_true_eq, not_lt]
        linarith [not_lt.mp hend]
      rw [h1, if_pos rfl]
      unfold hourStep hourContribution
      simp only [hgap2, Bool.false_eq_true, if_false, if_neg hend]
      by_cases hes : (if sessionEndOf now b < now then sessionEndOf now b else now) ≤
          (if b.startTime > now - 3600000 then b.startTime else now - 3600000)
      · rw [if_pos hes, if_pos hes]
        ring
      · rw [if_neg hes, if_neg hes]
        have hs : b.startTime ≤
            (if b.startTime > now - 3600000 then b.startTime else now - 3600000) := by
          split_ifs with h
          · exact le_refl _
          · linarith [not_lt.mp h]
        have he : (if sessionEndOf now b < now then sessionEndOf now b else now) ≤
            sessionEndOf now b := by
          split_ifs with h
          · exact le_refl _
          · linarith [not_lt.mp h]
        have hlt : (if b.startTime > now - 3600000 then b.startTime else now - 3600000) <
            (if sessionEndOf now b < now then sessionEndOf now b else now) :=
          lt_of_not_le hes
        have hdur : (sessionEndOf now b - b.startTime) / 60000 > 0 := by
          apply div_pos
          · linarith
          · norm_num
        rw [if_pos hdur]

/-- The burn-rate loop accumulates the claimed contributions of the relevant
blocks. -/
theorem hourLoop_eq (now : ℚ) (blocks : List SessionBlock) :
    ∀ acc : ℚ, blocks.foldl (hourStep now) acc
      = acc + ((blocks.filter (hourRelevant now)).map (hourContribution now)).sum := by
  induction blocks with
  | nil => intro acc; simp
  | cons b bs ih =>
    intro acc
    rw [List.foldl_cons, List.filter_cons, hourStep_eq]
    by_cases hrel : hourRelevant now b = true
    · rw [if_pos hrel, if_pos hrel, List.map_cons, List.sum_cons, ih]
      ring
    · have hrel2 : hourRelevant now b = false := by
        revert hrel; cases hourRelevant now b <;> simp
      rw [hrel2]
      simp only [Bool.false_eq_true, if_false, add_zero]
      exact ih acc

/-- `calculateHourlyBurnRate` equals the claimed sum of linearly apportioned
contributions over relevant non-gap blocks, divided by 60. -/
theorem calculateHourlyBurnRate_eq (blocks : List SessionBlock) (now : ℚ) :
    calculateHourlyBurnRate blocks now =
      ((blocks.filter (hourRelevant now)).map (hourContribution now)).sum / 60 := by
  unfold calculateHourlyBurnRate
  by_cases hb : blocks.isEmpty
  · have h0 : blocks = [] := by
      cases blocks with
      | nil => rfl
      | cons a l => cases hb
    subst h0
    simp
  · have hb2 : blocks.isEmpty = false := by
      revert hb; cases blocks.isEmpty <;> simp
    rw [hb2]
    simp only [Bool.false_eq_true, if_false]
    rw [hourLoop_eq]
    ring

/-- The scenario block of C4: spans 2 hours (120 minutes) holding 1200
tokens, with its last 30 minutes inside the trailing hour of `now =
10000000`. -/
def bScen : SessionBlock :=
  { id := "s", startTime := 1000000, endTime := 8200000, actualEndTime := none,
    isActive := false, isGap := false,
    tokenCounts := { inputTokens := 1200, outputTokens := 0,
                     cacheCreationInputTokens := 0, cacheReadInputTokens := 0 },
    costUSD := 0, models := [] }

/-- C4: for every block list, the hourly burn rate equals the sum over
non-gap blocks whose effective end is not before now minus 60 minutes of
total tokens times the overlap-to-duration ratio in minutes (empty or
non-positive overlaps contribute nothing), divided by 60; in particular the
2-hour 1200-token block with 30 minutes in the trailing hour contributes
1200 × (30/120) = 300 tokens to the sum. -/
theorem claim_C4_hourly_burn_rate :
    (∀ (blocks : List SessionBlock) (now : ℚ),
      calculateHourlyBurnRate blocks now =
        ((blocks.filter (hourRelevant now)).map (hourContribution now)).sum / 60) ∧
    hourContribution 10000000 bScen = 300 ∧
    calculateHourlyBurnRate [bScen] 10000000 = 300 / 60 := by
  refine ⟨calculateHourlyBurnRate_eq, ?_, ?_⟩
  · norm_num [hourContribution, sessionEndOf, bScen, getTotalTokensFromBlock]
  · rw [calculateHourlyBurnRate_eq]
    norm_num [hourContribution, hourRelevant, sessionEndOf, bScen, getTotalTokensFromBlock,
      List.filter]

/-- A fold whose step ignores elements outside the filter predicate is
unchanged by filtering. -/
theorem foldl_filter_skip {α β : Type} (p : β → Bool) (f : α → β → α)
    (hf : ∀ acc b, p b = false → f acc b = acc) (l : List β) :
    ∀ acc : α, (l.filter p).foldl f acc = l.foldl f acc := by
  induction l with
  | nil => intro acc; rfl
  | cons b bs ih =>
    intro acc
    rw [List.filter_cons, List.foldl_cons]
    by_cases hb : p b = true
    · rw [if_pos hb, List.foldl_cons]
      exact ih _
    · have hb2 : p b = false := by revert hb; cases p b <;> simp
      rw [hb2]
      simp only [Bool.false_eq_true, if_false]
      rw [hf acc b hb2]
      exact ih acc

/-- A filter that already requires non-gap absorbs a preceding non-gap
filter. -/
theorem filter_nonGap_absorb (l : List SessionBlock) (p : SessionBlock → Bool) :
    (l.filter (fun b => !b.isGap)).filter (fun b => !b.isGap && p b)
      = l.filter (fun b => !b.isGap && p b) := by
  rw [List.filter_filter]
  apply List.filter_congr
  intro b _
  cases hb : b.isGap <;> simp

/-- C10: gap blocks contribute to no aggregate — removing all gap blocks
leaves the hourly burn rate, the full velocity record (hence the 24-hour and
7-day token totals), the blocks-to-daily-usage fold (tokens, cost and
per-model breakdown), and the historical maximum used for limit
auto-detection unchanged. -/
theorem claim_C10_gap_invariance (blocks : List SessionBlock) (rate now : ℚ) :
    calculateHourlyBurnRate (blocks.filter (fun b => !b.isGap)) now
      = calculateHourlyBurnRate blocks now ∧
    calculateVelocityFromBlocks (blocks.filter (fun b => !b.isGap)) rate now
      = calculateVelocityFromBlocks blocks rate now ∧
    convertBlocksToDailyUsage (blocks.filter (fun b => !b.isGap))
      = convertBlocksToDailyUsage blocks ∧
    getMaxTokensFromBlocks (blocks.filter (fun b => !b.isGap))
      = getMaxTokensFromBlocks blocks := by
  refine ⟨?_, ?_, ?_, ?_⟩
  · rw [calculateHourlyBurnRate_eq, calculateHourlyBurnRate_eq]
    congr 1
    congr 1
    congr 1
    exact filter_nonGap_absorb blocks _
  · unfold calculateVelocityFromBlocks
    simp only [filter_nonGap_absorb]
  · unfold convertBlocksToDailyUsage
    congr 1
    apply foldl_filter_skip
    intro acc b hb
    have hgap : b.isGap = true := by
      revert hb; cases b.isGap <;> simp
    simp [dailyStep, hgap]
  · unfold getMaxTokensFromBlocks
    have hrw := foldl_filter_skip (fun b => !b.isGap)
      (fun acc block =>
        if !block.isGap && !block.isActive then
          let totalTokens := getTotalTokensFromBlock block
          if totalTokens > acc then totalTokens else acc
        else acc)
      (by
        intro acc b hb
        have hb2 : (!b.isGap) = false := hb
        have hgap : b.isGap = true := by revert hb2; cases b.isGap <;> simp
        simp [hgap]) blocks 0
    rw [hrw]
